import Mathlib

/-!
Verification of the favourites subsystem of `src/static/next-bus.js`
(`class FavouritesManager`, lines 260-369), embedded shallowly: the
in-memory favourites object is an association list in insertion order,
`localStorage` is the single entry the code touches, and the DOM surface
is a record of the elements the code queries.
-/

namespace NextBus

/-- The favourites mapping `stop_id -> stop_name` kept by `FavouritesManager`
(`this.favourites` in `src/static/next-bus.js`), modelled as an association
list in insertion order. -/
abbrev FavMap := List (String × String)

/-- JavaScript truthiness of the value read from `this.favourites[stopId]`:
`undefined` (here `none`) and the empty string are falsy; every other string
is truthy. -/
def jsTruthyOpt : Option String → Bool
  | none => false
  | some s => if s = "" then false else true

/-- The property read `this.favourites[stopId]`. -/
def favLookup : FavMap → String → Option String
  | [], _ => none
  | (k, v) :: rest, key => if k = key then some v else favLookup rest key

/-- The statement `delete this.favourites[stopId]`. -/
def favErase (m : FavMap) (k : String) : FavMap :=
  m.filter fun p => if p.1 = k then false else true

/-- The assignment `this.favourites[stopId] = stopName`: updates the value in
place when the key is present (a JavaScript object never holds a key twice),
otherwise appends a new entry at the end of the enumeration order. -/
def favInsert : FavMap → String → String → FavMap
  | [], k, v => [(k, v)]
  | (k2, w) :: rest, k, v =>
    if k2 = k then (k, v) :: rest else (k2, w) :: favInsert rest k v

/-- The mutation `FavouritesManager.toggleFavourite` performs on the
in-memory mapping (lines 277-281): `if (this.favourites[stopId]) delete
this.favourites[stopId]; else this.favourites[stopId] = stopName`. The guard
is JavaScript truthiness of the stored value, not key presence. -/
def toggleFavourite (m : FavMap) (stopId stopName : String) : FavMap :=
  if jsTruthyOpt (favLookup m stopId) then favErase m stopId
  else favInsert m stopId stopName

/-- Model of `JSON.stringify` on the favourites object: quotes every key and
value, escaping the quote and backslash characters (the only escapes such a
payload can need besides control characters, which these strings do not
contain). -/
def escapeJson (s : String) : String :=
  String.mk (s.data.flatMap fun c => if c = '"' ∨ c = '\\' then ['\\', c] else [c])

def quoteJson (s : String) : String := "\"" ++ escapeJson s ++ "\""

/-- `JSON.stringify(this.favourites)`: a flat object literal, members in
enumeration order, no whitespace. -/
def serializeFavs (m : FavMap) : String :=
  "\x7b" ++ String.intercalate "," (m.map fun p => quoteJson p.1 ++ ":" ++ quoteJson p.2) ++ "\x7d"

/-- Model of the platform JSON string scanner: consumes characters after an
opening quote up to the matching closing quote, decoding the escapes for
quote and backslash; returns the decoded string and the remaining input. -/
def parseJString : List Char → Option (String × List Char)
  | [] => none
  | '"' :: rest => some ("", rest)
  | '\\' :: c :: rest =>
    if c = '"' ∨ c = '\\' then
      match parseJString rest with
      | some (s, r) => some (String.mk (c :: s.data), r)
      | none => none
    else none
  | c :: rest =>
    match parseJString rest with
    | some (s, r) => some (String.mk (c :: s.data), r)
    | none => none

/-- One `"key":"value"` object member. -/
def parseMember (cs : List Char) : Option ((String × String) × List Char) :=
  match cs with
  | '"' :: rest =>
    match parseJString rest with
    | some (k, ':' :: '"' :: r2) =>
      match parseJString r2 with
      | some (v, r3) => some ((k, v), r3)
      | none => none
    | _ => none
  | _ => none

/-- Comma separated object members up to the closing brace; `fuel` bounds the
recursion by the length of the input. -/
def parseMembers : Nat → List Char → Option (FavMap × List Char)
  | 0, _ => none
  | fuel + 1, cs =>
    match parseMember cs with
    | none => none
    | some (p, ',' :: rest) =>
      match parseMembers fuel rest with
      | some (m, r) => some (p :: m, r)
      | none => none
    | some (p, '}' :: rest) => some ([p], rest)
    | some _ => none

/-- Model of the platform `JSON.parse` specialised to the favourites payload:
accepts exactly the flat string-to-string object literals that
`JSON.stringify` produces for the favourites mapping, and rejects every other
input (in the browser a rejected input raises a `SyntaxError`). -/
def jsonParseFavs (s : String) : Option FavMap :=
  match s.data with
  | '{' :: '}' :: rest => if rest = [] then some [] else none
  | '{' :: rest =>
    match parseMembers (rest.length + 1) rest with
    | some (m, []) => some m
    | _ => none
  | _ => none

/-- `FavouritesManager.loadFavourites` (lines 267-270):
`const stored = localStorage.getItem("busStopFavourites");
return stored ? JSON.parse(stored) : \x7b\x7d;`.
`getItem` yields `null` (here `none`) when the key is absent; the only falsy
string is the empty string. The `JSON.parse` call has no surrounding
try/catch, so a malformed value propagates a `SyntaxError`, modelled as
`Except.error`. -/
def loadFavourites (stored : Option String) : Except String FavMap :=
  match stored with
  | none => Except.ok []
  | some s =>
    if s = "" then Except.ok []
    else
      match jsonParseFavs s with
      | some m => Except.ok m
      | none => Except.error "SyntaxError"

/-- A favourite card built by `renderFavourites` (lines 293-324): the `h3`
shows the stored stop name, and the embedded `favourite-button` carries
`data-stop-id` and an `active` class flag. -/
structure Card where
  stopId : String
  stopName : String
  active : Bool
deriving DecidableEq

/-- A `favourite-button` appended to the `#bus-times h2` heading by
`addFavouriteButtonToBusTimes` (lines 357-366). -/
structure HeaderBtn where
  stopId : String
  stopName : String
  active : Bool
deriving DecidableEq

/-- The `#bus-times h2` heading: its text content plus the buttons appended
to it. -/
structure Header where
  text : String
  buttons : List HeaderBtn
deriving DecidableEq

/-- The DOM surface the favourites code touches; `none` models an absent
element. `favouritesList` holds the child cards of `#favourites-list`,
`favouritesSection` the `style.display` of `#favourites-section`, and
`header` the `#bus-times h2` heading. -/
structure Dom where
  favouritesList : Option (List Card)
  favouritesSection : Option String
  header : Option Header
deriving DecidableEq

/-- Whole page state: the in-memory mapping, the `busStopFavourites` entry of
`localStorage`, and the DOM. -/
structure App where
  favourites : FavMap
  storageFavourites : Option String
  dom : Dom
deriving DecidableEq

def headerButtonsOf (dom : Dom) : List HeaderBtn :=
  match dom.header with
  | some h => h.buttons
  | none => []

/-- Whether `document.querySelector(".favourite-button")` finds an element:
every rendered favourite card contains one such button (line 298), and so
does the heading once the binder has appended one (line 359). -/
def hasFavouriteButton (dom : Dom) : Bool :=
  (match dom.favouritesList with
   | some cs => !cs.isEmpty
   | none => false) || !(headerButtonsOf dom).isEmpty

/-- `FavouritesManager.saveFavourites` (lines 272-274): rewrites the whole
serialized mapping into the single `localStorage` entry. -/
def saveFavourites (a : App) : App :=
  { a with storageFavourites := some (serializeFavs a.favourites) }

/-- `FavouritesManager.renderFavourites` (lines 287-330): a no-op when
`#favourites-list` is absent; otherwise clears the list, builds one card per
entry (each card button is created with the `active` class), and finally,
when `#favourites-section` exists, sets its display to `block` or `none` by
the truthiness of `Object.keys(this.favourites).length`. -/
def renderFavourites (m : FavMap) (dom : Dom) : Dom :=
  match dom.favouritesList with
  | none => dom
  | some _ =>
    let dom1 : Dom :=
      { dom with favouritesList := some (m.map fun p => ⟨p.1, p.2, true⟩) }
    match dom1.favouritesSection with
    | none => dom1
    | some _ =>
      { dom1 with favouritesSection := some (if m.isEmpty then "none" else "block") }

/-- `FavouritesManager.updateFavouriteButtons` (lines 332-338): every
`favourite-button` in the document gets its `active` class toggled to the
truthiness of `this.favourites[button.dataset.stopId]`. -/
def updateFavouriteButtons (m : FavMap) (dom : Dom) : Dom :=
  { dom with
    favouritesList :=
      dom.favouritesList.map fun cs =>
        cs.map fun c => { c with active := jsTruthyOpt (favLookup m c.stopId) },
    header :=
      dom.header.map fun h =>
        { h with buttons := h.buttons.map fun b =>
            { b with active := jsTruthyOpt (favLookup m b.stopId) } } }

/-- The full effect of `FavouritesManager.toggleFavourite` (lines 276-285):
mutate the mapping, then `saveFavourites`, `renderFavourites`,
`updateFavouriteButtons`, in that order. -/
def toggleFavouriteApp (a : App) (stopId stopName : String) : App :=
  let m := toggleFavourite a.favourites stopId stopName
  let a1 := saveFavourites { a with favourites := m }
  let a2 : App := { a1 with dom := renderFavourites m a1.dom }
  { a2 with dom := updateFavouriteButtons m a2.dom }

/-- Replace the first occurrence of `pat` in `s` by the empty string: the
semantics of the JavaScript `String.replace` call with a string pattern. -/
def replaceFirstOcc (s pat : String) : String :=
  match s.splitOn pat with
  | [] => s
  | p :: ps => if ps = [] then s else p ++ String.intercalate pat ps

/-- `FavouritesManager.addFavouriteButtonToBusTimes` (lines 348-368): a no-op
when the heading is absent, or when the `stop_id` query parameter is unset
(`get` returns `null`, here `none`; the empty string is likewise falsy).
Otherwise it appends one button to the heading, but only if
`document.querySelector(".favourite-button")` finds no such button anywhere
in the document. -/
def addFavouriteButtonToBusTimes (m : FavMap) (stopIdParam : Option String) (dom : Dom) : Dom :=
  match dom.header with
  | none => dom
  | some hdr =>
    let stopName := (replaceFirstOcc hdr.text "Upcoming Buses at ").trim
    match stopIdParam with
    | none => dom
    | some sid =>
      if sid = "" then dom
      else if hasFavouriteButton dom then dom
      else
        { dom with header := some ({ hdr with buttons := hdr.buttons ++
            [⟨sid, stopName, jsTruthyOpt (favLookup m sid)⟩] }) }

/-- A sequence of user toggle actions applied to the page state. -/
def runToggles (a : App) (ops : List (String × String)) : App :=
  ops.foldl (fun s p => toggleFavouriteApp s p.1 p.2) a

def sampleHeader : Header :=
  { text := "Upcoming Buses at Main St Station", buttons := [] }

def sampleDom : Dom :=
  { favouritesList := some [], favouritesSection := some "none",
    header := some sampleHeader }

def sampleApp : App :=
  { favourites := [], storageFavourites := none, dom := sampleDom }

/-- A page on which one favourite card is rendered (a non-empty favourites
set after `renderFavourites`), the bus-times fragment has just been swapped
in, and a stop is selected in the query string. -/
def domWithCard : Dom :=
  { favouritesList := some [⟨"7", "King St", true⟩],
    favouritesSection := some "block",
    header := some sampleHeader }

/-- A page with none of the favourites elements present. -/
def bareDom : Dom :=
  { favouritesList := none, favouritesSection := none, header := none }

theorem favLookup_cons (k v : String) (rest : FavMap) (y : String) :
    favLookup ((k, v) :: rest) y = if k = y then some v else favLookup rest y := rfl

theorem favErase_cons (k v : String) (rest : FavMap) (x : String) :
    favErase ((k, v) :: rest) x =
      if k = x then favErase rest x else (k, v) :: favErase rest x := by
  simp only [favErase, List.filter_cons]
  by_cases hk : k = x <;> simp [hk]

theorem favLookup_erase_self (m : FavMap) (x : String) :
    favLookup (favErase m x) x = none := by
  induction m with
  | nil => rfl
  | cons p rest ih =>
    obtain ⟨k, v⟩ := p
    rw [favErase_cons]
    by_cases hk : k = x
    · rw [if_pos hk]; exact ih
    · rw [if_neg hk, favLookup_cons, if_neg hk]; exact ih

theorem favLookup_erase_ne (m : FavMap) (x y : String) (h : y ≠ x) :
    favLookup (favErase m x) y = favLookup m y := by
  induction m with
  | nil => rfl
  | cons p rest ih =>
    obtain ⟨k, v⟩ := p
    rw [favErase_cons]
    by_cases hk : k = x
    · have hky : ¬k = y := fun he => h (hk ▸ he.symm)
      rw [if_pos hk, favLookup_cons, if_neg hky]; exact ih
    · rw [if_neg hk, favLookup_cons, favLookup_cons]
      by_cases hky : k = y
      · rw [if_pos hky, if_pos hky]
      · rw [if_neg hky, if_neg hky]; exact ih

theorem favErase_of_none (m : FavMap) (x : String) (h : favLookup m x = none) :
    favErase m x = m := by
  induction m with
  | nil => rfl
  | cons p rest ih =>
    obtain ⟨k, v⟩ := p
    rw [favLookup_cons] at h
    by_cases hk : k = x
    · rw [if_pos hk] at h; exact absurd h (by simp)
    · rw [if_neg hk] at h
      rw [favErase_cons, if_neg hk, ih h]

theorem favLookup_append (m l : FavMap) (y : String) :
    favLookup (m ++ l) y =
      match favLookup m y with
      | some v => some v
      | none => favLookup l y := by
  induction m with
  | nil => rfl
  | cons p rest ih =>
    obtain ⟨k, v⟩ := p
    by_cases h : k = y <;> simp [favLookup_cons, h, ih]

theorem favInsert_cons (k2 w : String) (rest : FavMap) (k v : String) :
    favInsert ((k2, w) :: rest) k v =
      if k2 = k then (k, v) :: rest else (k2, w) :: favInsert rest k v := rfl

theorem favLookup_insert_self (m : FavMap) (x v : String) :
    favLookup (favInsert m x v) x = some v := by
  induction m with
  | nil => simp [favInsert, favLookup_cons]
  | cons p rest ih =>
    obtain ⟨k, w⟩ := p
    rw [favInsert_cons]
    by_cases hk : k = x
    · rw [if_pos hk, favLookup_cons, if_pos rfl]
    · rw [if_neg hk, favLookup_cons, if_neg hk]; exact ih

theorem favLookup_insert_ne (m : FavMap) (x v y : String) (h : y ≠ x) :
    favLookup (favInsert m x v) y = favLookup m y := by
  induction m with
  | nil =>
    have hxy : ¬x = y := fun he => h he.symm
    simp [favInsert, favLookup_cons, hxy]
  | cons p rest ih =>
    obtain ⟨k, w⟩ := p
    rw [favInsert_cons]
    by_cases hk : k = x
    · have hky : ¬k = y := fun he => h (hk ▸ he.symm)
      have hxy : ¬x = y := fun he => h he.symm
      rw [if_pos hk, favLookup_cons, if_neg hxy, favLookup_cons, if_neg hky]
    · rw [if_neg hk, favLookup_cons, favLookup_cons]
      by_cases hky : k = y
      · rw [if_pos hky, if_pos hky]
      · rw [if_neg hky, if_neg hky]; exact ih

theorem favInsert_of_none (m : FavMap) (x v : String) (h : favLookup m x = none) :
    favInsert m x v = m ++ [(x, v)] := by
  induction m with
  | nil => rfl
  | cons p rest ih =>
    obtain ⟨k, w⟩ := p
    rw [favLookup_cons] at h
    by_cases hk : k = x
    · rw [if_pos hk] at h; exact absurd h (by simp)
    · rw [if_neg hk] at h
      rw [favInsert_cons, if_neg hk, ih h, List.cons_append]

theorem renderFavourites_list (m : FavMap) (dom : Dom)
    (h : dom.favouritesList.isSome = true) :
    (renderFavourites m dom).favouritesList =
      some (m.map fun p => ⟨p.1, p.2, true⟩) := by
  cases hl : dom.favouritesList with
  | none => rw [hl] at h; simp at h
  | some cs =>
    cases hs : dom.favouritesSection <;> simp [renderFavourites, hl, hs]

theorem renderFavourites_section (m : FavMap) (dom : Dom)
    (h1 : dom.favouritesList.isSome = true)
    (h2 : dom.favouritesSection.isSome = true) :
    (renderFavourites m dom).favouritesSection =
      some (if m.isEmpty then "none" else "block") := by
  cases hl : dom.favouritesList with
  | none => rw [hl] at h1; simp at h1
  | some cs =>
    cases hs : dom.favouritesSection with
    | none => rw [hs] at h2; simp at h2
    | some st => simp [renderFavourites, hl, hs]

theorem updateFavouriteButtons_section (m : FavMap) (dom : Dom) :
    (updateFavouriteButtons m dom).favouritesSection = dom.favouritesSection := rfl

theorem updateFavouriteButtons_list_isSome (m : FavMap) (dom : Dom) :
    (updateFavouriteButtons m dom).favouritesList.isSome =
      dom.favouritesList.isSome := by
  cases h : dom.favouritesList <;> simp [updateFavouriteButtons, h]

theorem toggleFavouriteApp_favourites (a : App) (sid nm : String) :
    (toggleFavouriteApp a sid nm).favourites =
      toggleFavourite a.favourites sid nm := rfl

theorem toggleFavouriteApp_dom (a : App) (sid nm : String) :
    (toggleFavouriteApp a sid nm).dom =
      updateFavouriteButtons (toggleFavourite a.favourites sid nm)
        (renderFavourites (toggleFavourite a.favourites sid nm) a.dom) := rfl

theorem toggleFavouriteApp_list_isSome (a : App) (sid nm : String)
    (h : a.dom.favouritesList.isSome = true) :
    (toggleFavouriteApp a sid nm).dom.favouritesList.isSome = true := by
  rw [toggleFavouriteApp_dom, updateFavouriteButtons_list_isSome,
    renderFavourites_list _ _ h]
  rfl

theorem toggleFavouriteApp_section_isSome (a : App) (sid nm : String)
    (h1 : a.dom.favouritesList.isSome = true)
    (h2 : a.dom.favouritesSection.isSome = true) :
    (toggleFavouriteApp a sid nm).dom.favouritesSection.isSome = true := by
  rw [toggleFavouriteApp_dom, updateFavouriteButtons_section,
    renderFavourites_section _ _ h1 h2]
  rfl

theorem runToggles_inv (ops : List (String × String)) (a : App)
    (h : a.dom.favouritesList.isSome = true ∧ a.dom.favouritesSection.isSome = true) :
    (runToggles a ops).dom.favouritesList.isSome = true ∧
      (runToggles a ops).dom.favouritesSection.isSome = true := by
  induction ops generalizing a with
  | nil => exact h
  | cons p rest ih =>
    have hstep : (toggleFavouriteApp a p.1 p.2).dom.favouritesList.isSome = true ∧
        (toggleFavouriteApp a p.1 p.2).dom.favouritesSection.isSome = true :=
      ⟨toggleFavouriteApp_list_isSome a p.1 p.2 h.1,
       toggleFavouriteApp_section_isSome a p.1 p.2 h.1 h.2⟩
    simpa [runToggles, List.foldl_cons] using ih _ hstep

/-- C1 (corrected): `loadFavourites` returns the parsed mapping when the
persisted value is valid JSON (in particular any value `saveFavourites`
wrote), and the empty mapping when the entry is absent or the empty string;
but a present, non-empty, malformed value is not swallowed: the `JSON.parse`
call has no surrounding try/catch, so here the SyntaxError propagates. -/
theorem loadFavourites_spec :
    loadFavourites none = Except.ok [] ∧
    loadFavourites (some "") = Except.ok [] ∧
    (∀ s m, s ≠ "" → jsonParseFavs s = some m →
      loadFavourites (some s) = Except.ok m) ∧
    (∀ s, s ≠ "" → jsonParseFavs s = none →
      loadFavourites (some s) = Except.error "SyntaxError") ∧
    loadFavourites (some (serializeFavs [("5", "King St")])) =
      Except.ok [("5", "King St")] := by
  refine ⟨rfl, rfl, ?_, ?_, ?_⟩
  · intro s m hs hp; simp [loadFavourites, hs, hp]
  · intro s hs hp; simp [loadFavourites, hs, hp]
  · rfl

/-- C1 counterexample: with the literal string `not json` persisted, loading
raises (the uncaught `JSON.parse` SyntaxError) instead of returning the
empty set as the claim states. -/
theorem loadFavourites_not_json_cex :
    loadFavourites (some "not json") = Except.error "SyntaxError" := rfl

/-- C1 witness: the well-formed value of the empty object parses to the empty
mapping without error. -/
theorem loadFavourites_spec_witness :
    loadFavourites (some "\x7b\x7d") = Except.ok [] :=
  loadFavourites_spec.2.2.1 "\x7b\x7d" [] (by decide) (by rfl)

/-- C2 (code bug): on a page where one favourite card is rendered, the
heading is present and stop 101 is selected, the binder adds no toggle
control to the bus-times heading: `document.querySelector` with class
`favourite-button` matches the card button anywhere in the document, so the
guard meant to prevent duplicate header controls suppresses the header
control entirely, and the refresh cycle ends with zero controls in the
heading instead of exactly one. -/
theorem addFavouriteButton_omitted_bug :
    hasFavouriteButton domWithCard = true ∧
    domWithCard.header.isSome = true ∧
    headerButtonsOf
      (addFavouriteButtonToBusTimes [("7", "King St")] (some "101") domWithCard) = [] :=
  ⟨rfl, rfl, rfl⟩

/-- C3 (amended): for a stop not in the set and a non-empty stop name,
toggling adds the entry and toggling again removes it, restoring the original
set. The restriction to non-empty names is forced: an entry stored with the
empty-string name is falsy, so the second toggle re-inserts instead of
removing. -/
theorem toggle_toggle_roundTrip (m : FavMap) (x nm : String)
    (hx : favLookup m x = none) (hn : nm ≠ "") :
    favLookup (toggleFavourite m x nm) x = some nm ∧
    toggleFavourite (toggleFavourite m x nm) x nm = m := by
  have h1 : toggleFavourite m x nm = favInsert m x nm := by
    simp [toggleFavourite, jsTruthyOpt, hx]
  have h2 : favLookup (favInsert m x nm) x = some nm := favLookup_insert_self m x nm
  refine ⟨by rw [h1, h2], ?_⟩
  rw [h1]
  have hsplit : favErase (favInsert m x nm) x = favErase m x ++ favErase [(x, nm)] x := by
    rw [favInsert_of_none m x nm hx]
    simp [favErase, List.filter_append]
  simp only [toggleFavourite, h2, jsTruthyOpt, hn, if_neg, if_true]
  rw [if_pos (by simp [hn]), hsplit, favErase_of_none m x hx]
  simp [favErase]

/-- C3 counterexample: starting from the empty set (stop 101 not a member)
and toggling twice with the empty stop name, the second toggle re-inserts
instead of removing, because the stored empty string is falsy; the round trip
does not restore the empty set. -/
theorem toggle_toggle_empty_name_cex :
    favLookup ([] : FavMap) "101" = none ∧
    toggleFavourite (toggleFavourite [] "101" "") "101" "" ≠ ([] : FavMap) :=
  ⟨rfl, by decide⟩

/-- C3 witness: round trip at stop 101 with name Main St Station from the
empty set. -/
theorem toggle_toggle_roundTrip_witness :
    favLookup (toggleFavourite [] "101" "Main St Station") "101" =
      some "Main St Station" ∧
    toggleFavourite (toggleFavourite [] "101" "Main St Station") "101"
      "Main St Station" = ([] : FavMap) :=
  toggle_toggle_roundTrip [] "101" "Main St Station" rfl (by decide)

/-- C4 (amended): toggle always persists the full serialized set afterwards;
it removes the entry when the stored value is truthy (present with a
non-empty name) and otherwise inserts the mapping stop id to stop name. The
amendment is forced: an entry present with the empty-string name is falsy,
so it is overwritten rather than removed. -/
theorem toggleFavourite_insert_remove_persist (a : App) (sid nm : String) :
    (toggleFavouriteApp a sid nm).favourites = toggleFavourite a.favourites sid nm ∧
    (toggleFavouriteApp a sid nm).storageFavourites =
      some (serializeFavs (toggleFavourite a.favourites sid nm)) ∧
    favLookup (toggleFavourite a.favourites sid nm) sid =
      (if jsTruthyOpt (favLookup a.favourites sid) then none else some nm) := by
  refine ⟨rfl, rfl, ?_⟩
  by_cases h : jsTruthyOpt (favLookup a.favourites sid) = true
  · simp [toggleFavourite, h, favLookup_erase_self]
  · simp [toggleFavourite, h, favLookup_insert_self]

/-- C4 counterexample: stop 101 is present in the set (stored with the
empty-string name), yet toggle overwrites the entry instead of removing it. -/
theorem toggleFavourite_present_not_removed_cex :
    favLookup [("101", "")] "101" = some "" ∧
    toggleFavourite [("101", "")] "101" "Main St" = [("101", "Main St")] :=
  ⟨rfl, rfl⟩

/-- C5 (confirmed): after any sequence of toggles followed by one more toggle
(every toggle re-renders), the favourites section is displayed exactly when
the favourites set is non-empty, provided the favourites list and section
elements exist on the page. -/
theorem section_visible_iff_nonEmpty (a : App) (ops : List (String × String))
    (sid nm : String)
    (h1 : a.dom.favouritesList.isSome = true)
    (h2 : a.dom.favouritesSection.isSome = true) :
    ((toggleFavouriteApp (runToggles a ops) sid nm).dom.favouritesSection =
        some "block" ↔
      (toggleFavouriteApp (runToggles a ops) sid nm).favourites ≠ []) := by
  obtain ⟨hb1, hb2⟩ := runToggles_inv ops a ⟨h1, h2⟩
  rw [toggleFavouriteApp_dom, updateFavouriteButtons_section,
    renderFavourites_section _ _ hb1 hb2, toggleFavouriteApp_favourites]
  cases hM : toggleFavourite (runToggles a ops).favourites sid nm with
  | nil => simp
  | cons q tl => simp

/-- C5 witness: one toggle from the empty set on the sample page makes the
section visible and the set non-empty. -/
theorem section_visible_iff_nonEmpty_witness :
    ((toggleFavouriteApp (runToggles sampleApp []) "101" "Main St Station").dom.favouritesSection =
        some "block" ↔
      (toggleFavouriteApp (runToggles sampleApp []) "101" "Main St Station").favourites ≠ []) :=
  section_visible_iff_nonEmpty sampleApp [] "101" "Main St Station" rfl rfl

/-- C6 (confirmed): when the favourites list element exists, render replaces
its content by exactly one card per entry of the set, in enumeration order,
and each card displays the stored stop name. -/
theorem render_one_card_per_entry (m : FavMap) (dom : Dom)
    (h : dom.favouritesList.isSome = true) :
    (renderFavourites m dom).favouritesList =
      some (m.map fun p => ⟨p.1, p.2, true⟩) ∧
    ((renderFavourites m dom).favouritesList.getD []).length = m.length ∧
    ((renderFavourites m dom).favouritesList.getD []).map (fun c => c.stopName) =
      m.map (fun p => p.2) := by
  have hl := renderFavourites_list m dom h
  refine ⟨hl, ?_, ?_⟩ <;> rw [hl] <;> simp

/-- C6 witness: rendering the singleton set produces one card named
Main St Station. -/
theorem render_one_card_per_entry_witness :
    (renderFavourites [("101", "Main St Station")] sampleDom).favouritesList =
      some [⟨"101", "Main St Station", true⟩] ∧
    ((renderFavourites [("101", "Main St Station")] sampleDom).favouritesList.getD []).length = 1 ∧
    ((renderFavourites [("101", "Main St Station")] sampleDom).favouritesList.getD []).map
      (fun c => c.stopName) = ["Main St Station"] :=
  render_one_card_per_entry [("101", "Main St Station")] sampleDom rfl

/-- C7 (confirmed): after every toggle mutation (applied after any earlier
sequence of toggles), the persisted entry equals the serialization of the
entire in-memory set: the set is fully rewritten on each mutation. -/
theorem storage_matches_memory (a : App) (ops : List (String × String))
    (sid nm : String) :
    (toggleFavouriteApp (runToggles a ops) sid nm).storageFavourites =
      some (serializeFavs (toggleFavouriteApp (runToggles a ops) sid nm).favourites) := rfl

/-- C8 (confirmed): with the favourites list element absent the renderer
returns the page unchanged, and with the bus-times heading absent the binder
returns the page unchanged; both functions are total, so no error is
raised. -/
theorem absent_elements_noop (m : FavMap) (dom : Dom) (sid : Option String) :
    (dom.favouritesList = none → renderFavourites m dom = dom) ∧
    (dom.header = none → addFavouriteButtonToBusTimes m sid dom = dom) := by
  constructor
  · intro h; simp [renderFavourites, h]
  · intro h; simp [addFavouriteButtonToBusTimes, h]

/-- C8 witness: both no-ops on a page with no favourites elements. -/
theorem absent_elements_noop_witness :
    renderFavourites [] bareDom = bareDom ∧
    addFavouriteButtonToBusTimes [] (some "101") bareDom = bareDom :=
  ⟨(absent_elements_noop [] bareDom (some "101")).1 rfl,
   (absent_elements_noop [] bareDom (some "101")).2 rfl⟩

/-- C9 (confirmed): toggling stop x never changes the entry of a distinct
stop y: neither membership nor the stored name. -/
theorem toggle_frame (m : FavMap) (x y nm : String) (h : y ≠ x) :
    favLookup (toggleFavourite m x nm) y = favLookup m y := by
  by_cases ht : jsTruthyOpt (favLookup m x) = true <;>
    simp [toggleFavourite, ht, favLookup_erase_ne m x y h,
      favLookup_insert_ne m x nm y h]

/-- C9 witness: toggling stop 101 leaves the entry of stop 7 unchanged. -/
theorem toggle_frame_witness :
    favLookup (toggleFavourite [("7", "King St")] "101" "Main St") "7" =
      favLookup [("7", "King St")] "7" :=
  toggle_frame [("7", "King St")] "101" "7" "Main St" (by decide)

/-- C10 (confirmed): when the URL query string has no stop id parameter the
binder leaves the page unchanged; it reads but never writes the favourites
set. -/
theorem binder_no_stop_id_noop (m : FavMap) (dom : Dom) :
    addFavouriteButtonToBusTimes m none dom = dom := by
  cases h : dom.header <;> simp [addFavouriteButtonToBusTimes, h]

end NextBus
